import Mathlib

/-
  Verification of the Google Calendar bulk updater
  (scripts/calendar_updater.py) against its specification.

  The embedding is shallow: the remote calendar service is modelled as an
  association list from event identifiers to event records, plus a predicate
  saying which identifiers make a live remote call raise an exception.
  Python dictionaries for events are modelled as records of optional fields,
  Python string truthiness (`if s:` is false for None and "") is made
  explicit, and Python str.lower / str.strip / substring membership are
  translated for the character data they act on here.
-/

namespace CalendarUpdater

/-- Characters stripped by Python `str.strip()` (the ASCII whitespace set). -/
def pySpace (c : Char) : Bool :=
  c = ' ' || c = '\t' || c = '\n' || c = '\r' || c = '\x0b' || c = '\x0c'

/-- Python `str.strip()`: drop leading and trailing whitespace. -/
def pyStrip (s : String) : String :=
  String.mk (((s.data.dropWhile pySpace).reverse.dropWhile pySpace).reverse)

/-- Python `str.lower()`, characterwise. -/
def pyLower (s : String) : String :=
  String.mk (s.data.map Char.toLower)

/-- Does `hay` start with `needle`? (helper for Python substring membership). -/
def startsWithChars : List Char → List Char → Bool
  | _, [] => true
  | [], _ :: _ => false
  | a :: as, b :: bs => a = b && startsWithChars as bs

/-- Is `needle` a contiguous substring of `hay`? -/
def containsSub : List Char → List Char → Bool
  | [], needle => needle.isEmpty
  | a :: as, needle => startsWithChars (a :: as) needle || containsSub as needle

/-- Python `needle in hay` on strings. -/
def pyIn (needle hay : String) : Bool :=
  containsSub hay.data needle.data

/-- A calendar event as the script sees it: the `id` key is accessed
unconditionally (`event['id']`), every other key through `.get`. -/
structure Event where
  id : String
  summary : Option String := none
  description : Option String := none
  location : Option String := none
  colorId : Option String := none
deriving Repr, DecidableEq

/-- The title predicate of `find_events` (line 101 of the source):
`title_contains.lower() in e.get('summary', '').lower()`. -/
def matchesTitle (t : String) (e : Event) : Bool :=
  pyIn (pyLower t) (pyLower (e.summary.getD ""))

/-- `find_events`, from the point where the remote listing call has returned
`listed` (the `items` of the response, in the service's start-time order):
lines 95-107 of the source.  `if title_contains:` is Python truthiness, so
`None` and the empty string both skip the filter. -/
def find_events (title_contains : Option String) (listed : List Event) : List Event :=
  match title_contains with
  | none => listed
  | some t => if t = "" then listed else listed.filter (matchesTitle t)

/-- The optional keyword parameters of `bulk_update` (lines 113-117). -/
structure UpdateSpec where
  new_title : Option String := none
  new_description : Option String := none
  new_location : Option String := none
  new_color_id : Option String := none
  append_to_description : Option String := none
deriving Repr, DecidableEq

/-- Python truthiness of an optional string: `if x:` is false for `None`
and for the empty string. -/
def pyTruthy : Option String → Bool
  | none => false
  | some s => if s = "" then false else true

/-- The `updates` dictionary built inside the loop of `bulk_update`
(lines 143-158): a partial mapping over the four writable keys. -/
structure Updates where
  summary : Option String := none
  description : Option String := none
  location : Option String := none
  colorId : Option String := none
deriving Repr, DecidableEq

/-- `if not updates:` — the dictionary is empty iff no key was set. -/
def Updates.isEmpty (u : Updates) : Bool :=
  u.summary.isNone && u.description.isNone && u.location.isNone && u.colorId.isNone

/-- Lines 143-158 of the source: build the changed-field mapping for one
event.  `new_description` wins over `append_to_description` (if/elif);
the append branch reads the description of the event from the search
result (`event.get('description', '')`), concatenates with a newline and
strips; `str(new_color_id)` is the identity on strings. -/
def computeUpdates (s : UpdateSpec) (event : Event) : Updates :=
  { summary := if pyTruthy s.new_title then s.new_title else none
    description :=
      if pyTruthy s.new_description then s.new_description
      else if pyTruthy s.append_to_description then
        some (pyStrip ((event.description.getD "") ++ "\n" ++
          (s.append_to_description.getD "")))
      else none
    location := if pyTruthy s.new_location then s.new_location else none
    colorId := if pyTruthy s.new_color_id then s.new_color_id else none }

/-- `full_event.update(updates)`: a key present in `updates` overwrites. -/
def overlay (new old : Option String) : Option String :=
  match new with
  | some v => some v
  | none => old

/-- Overlay the changed-field mapping onto the fetched full event. -/
def applyUpdates (e : Event) (u : Updates) : Event :=
  { e with
    summary := overlay u.summary e.summary
    description := overlay u.description e.description
    location := overlay u.location e.location
    colorId := overlay u.colorId e.colorId }

/-- The remote calendar state: event records keyed by identifier. -/
abbrev Remote := List (String × Event)

/-- The remote get call: first record stored under the identifier. -/
def lookupRemote : Remote → String → Option Event
  | [], _ => none
  | (k, v) :: rest, i => if k = i then some v else lookupRemote rest i

/-- The remote update call: replace the record stored under the identifier. -/
def setRemote : Remote → String → Event → Remote
  | [], _, _ => []
  | (k, v) :: rest, i, e => if k = i then (k, e) :: rest else (k, v) :: setRemote rest i e

/-- One per-event line of output: the dry-run preview (line 164), the
success line (line 183) or the caught-failure line (line 186). -/
inductive Report where
  | preview (title : String) (u : Updates)
  | success (title : String)
  | failure (title : String)
deriving Repr, DecidableEq

/-- What one invocation of `bulk_update` returns and does: the returned
count, the remote state afterwards, the per-event output lines in order,
and how many events reached the live get/update calls. -/
structure BulkResult where
  count : Nat
  remote : Remote
  reports : List Report
  liveCalls : Nat
deriving Repr, DecidableEq

/-- The live branch for one event (lines 166-186): fetch the full event by
id — a missing event makes the get call raise — then, unless the update
call raises (`f e.id = true` models any exception from the service),
overlay the changed fields and write back.  Returns whether the update
succeeded together with the resulting remote state; an exception anywhere
in the branch leaves the remote state unchanged. -/
def liveStep (remote : Remote) (f : String → Bool) (e : Event) (u : Updates) :
    Bool × Remote :=
  match lookupRemote remote e.id with
  | none => (false, remote)
  | some full =>
    if f e.id then (false, remote)
    else (true, setRemote remote e.id (applyUpdates full u))

/-- `bulk_update` (lines 109-188) over a list of search-result events:
per event build the changed-field mapping, skip if empty, preview in
dry-run mode, otherwise read-merge-write with per-event exception
catching; the returned count is the number of successful live updates. -/
def bulk_update (s : UpdateSpec) (f : String → Bool) (dry_run : Bool) :
    List Event → Remote → BulkResult
  | [], remote => ⟨0, remote, [], 0⟩
  | e :: rest, remote =>
    let title := e.summary.getD "Untitled"
    let u := computeUpdates s e
    if u.isEmpty then bulk_update s f dry_run rest remote
    else if dry_run then
      let r := bulk_update s f dry_run rest remote
      ⟨r.count, r.remote, Report.preview title u :: r.reports, r.liveCalls⟩
    else
      let step := liveStep remote f e u
      let r := bulk_update s f dry_run rest step.2
      ⟨r.count + (if step.1 then 1 else 0), r.remote,
        (if step.1 then Report.success title else Report.failure title) :: r.reports,
        r.liveCalls + 1⟩

/-- Collapse an optional parameter that Python truthiness ignores: the
empty string reads exactly like an omitted parameter. -/
def normStr : Option String → Option String
  | none => none
  | some s => if s = "" then none else some s

/-- Replace every empty-string parameter of the spec by an omitted one. -/
def normalizeSpec (s : UpdateSpec) : UpdateSpec :=
  { new_title := normStr s.new_title
    new_description := normStr s.new_description
    new_location := normStr s.new_location
    new_color_id := normStr s.new_color_id
    append_to_description := normStr s.append_to_description }

/-- The fields of a cached credential that `_authenticate` inspects
(`creds.valid`, `creds.expired`, `creds.refresh_token` read as truthiness). -/
structure CachedCreds where
  valid : Bool
  expired : Bool
  hasRefreshToken : Bool
deriving Repr, DecidableEq

/-- How `_authenticate` ends: with a session built from the cached, the
refreshed or the interactively granted credential, or with the
FileNotFoundError carrying setup guidance (the MissingClientSecret
condition of the spec). -/
inductive AuthOutcome where
  | usedCached
  | refreshed
  | interactiveFlow
  | missingClientSecret
deriving Repr, DecidableEq

/-- A cached credential is usable when it is valid, or expired with a
refresh token. -/
def usableCached : Option CachedCreds → Bool
  | none => false
  | some c => c.valid || (c.expired && c.hasRefreshToken)

/-- Lines 24-51 of the source, with the environment made explicit: `cached`
is the credential parsed from the token file (`none` when the file does not
exist), `credentialsFileExists` is `os.path.exists(self.credentials_path)`.
The refresh call and the interactive flow are modelled as succeeding; their
own failures propagate unmodified and are outside this control flow. -/
def _authenticate (cached : Option CachedCreds) (credentialsFileExists : Bool) :
    AuthOutcome :=
  match cached with
  | some creds =>
    if creds.valid then AuthOutcome.usedCached
    else if creds.expired && creds.hasRefreshToken then AuthOutcome.refreshed
    else if credentialsFileExists then AuthOutcome.interactiveFlow
    else AuthOutcome.missingClientSecret
  | none =>
    if credentialsFileExists then AuthOutcome.interactiveFlow
    else AuthOutcome.missingClientSecret

/-- Concrete scenario data: a location-only update spec. -/
def specLoc : UpdateSpec := { new_location := some "Room 4" }

def ev1 : Event := { id := "1", summary := some "One" }

def ev2 : Event := { id := "2", summary := some "Two" }

def ev3 : Event := { id := "3", summary := some "Three" }

/-- A remote service on which only the call for event "2" raises. -/
def failsSecond : String → Bool := fun i => if i = "2" then true else false

/-- A remote service on which no call raises. -/
def failsNone : String → Bool := fun _ => false

def remote3 : Remote := [("1", ev1), ("2", ev2), ("3", ev3)]

/- ------------------------------------------------------------------ -/
/- Helper lemmas                                                       -/
/- ------------------------------------------------------------------ -/

theorem containsSub_nil (hay : List Char) : containsSub hay [] = true := by
  cases hay <;> simp [containsSub, startsWithChars]

theorem matchesTitle_empty (e : Event) : matchesTitle "" e = true := by
  simp [matchesTitle, pyIn, pyLower, containsSub_nil]

/-- `computeUpdates` of the all-omitted spec sets no field. -/
theorem computeUpdates_empty_spec (e : Event) :
    (computeUpdates {} e).isEmpty = true := by
  simp [computeUpdates, Updates.isEmpty, pyTruthy]

/-- In dry-run mode `bulk_update` returns count 0, leaves the remote state
untouched and issues no live call. -/
theorem bulk_update_dry (s : UpdateSpec) (f : String → Bool) :
    ∀ (events : List Event) (remote : Remote),
      (bulk_update s f true events remote).count = 0 ∧
      (bulk_update s f true events remote).remote = remote ∧
      (bulk_update s f true events remote).liveCalls = 0 := by
  intro events
  induction events with
  | nil => intro remote; exact ⟨rfl, rfl, rfl⟩
  | cons e rest ih =>
    intro remote
    by_cases h : (computeUpdates s e).isEmpty = true
    · simpa [bulk_update, h] using ih remote
    · simpa [bulk_update, h] using ih remote

/-- The count never exceeds the number of events passed in. -/
theorem bulk_update_count_le (s : UpdateSpec) (f : String → Bool) (dry_run : Bool) :
    ∀ (events : List Event) (remote : Remote),
      (bulk_update s f dry_run events remote).count ≤ events.length := by
  intro events
  induction events with
  | nil => intro remote; simp [bulk_update]
  | cons e rest ih =>
    intro remote
    simp only [bulk_update, List.length_cons]
    split
    · exact Nat.le_trans (ih remote) (Nat.le_succ _)
    · split
      · exact Nat.le_trans (ih remote) (Nat.le_succ _)
      · have h2 := ih (liveStep remote f e (computeUpdates s e)).2
        show (bulk_update s f dry_run rest (liveStep remote f e (computeUpdates s e)).2).count
            + (if (liveStep remote f e (computeUpdates s e)).1 then 1 else 0)
            ≤ rest.length + 1
        split <;> omega

/-- A live call that raises leaves the remote state unchanged and reports
no success, whatever the lookup finds. -/
theorem liveStep_fails (remote : Remote) (f : String → Bool) (e : Event)
    (u : Updates) (hf : f e.id = true) : liveStep remote f e u = (false, remote) := by
  unfold liveStep
  cases lookupRemote remote e.id <;> simp [hf]

theorem overlay_overlay (n o : Option String) : overlay n (overlay n o) = overlay n o := by
  cases n <;> rfl

/-- Overlaying the same changed-field mapping twice equals overlaying once. -/
theorem applyUpdates_applyUpdates (e : Event) (u : Updates) :
    applyUpdates (applyUpdates e u) u = applyUpdates e u := by
  simp [applyUpdates, overlay_overlay]

theorem lookupRemote_setRemote_self (r : Remote) (i : String) (v w : Event)
    (h : lookupRemote r i = some w) :
    lookupRemote (setRemote r i v) i = some v := by
  induction r with
  | nil => simp [lookupRemote] at h
  | cons p rest ih =>
    obtain ⟨k, x⟩ := p
    by_cases hk : k = i
    · simp [lookupRemote, setRemote, hk]
    · simp only [lookupRemote, setRemote, if_neg hk] at h ⊢
      exact ih h

theorem setRemote_lookup_self (r : Remote) (i : String) (v : Event)
    (h : lookupRemote r i = some v) : setRemote r i v = r := by
  induction r with
  | nil => rfl
  | cons p rest ih =>
    obtain ⟨k, x⟩ := p
    by_cases hk : k = i
    · simp only [lookupRemote, if_pos hk] at h
      simp only [setRemote, if_pos hk, Option.some.injEq] at h ⊢
      rw [h.symm]
    · simp only [lookupRemote, if_neg hk] at h
      simp only [setRemote, if_neg hk]
      rw [ih h]

/-- Running the live step a second time with the same changed-field mapping
does not move the remote state any further. -/
theorem liveStep_idem (remote : Remote) (f : String → Bool) (e : Event) (u : Updates) :
    (liveStep (liveStep remote f e u).2 f e u).2 = (liveStep remote f e u).2 := by
  unfold liveStep
  cases hL : lookupRemote remote e.id with
  | none => simp [hL]
  | some full =>
    by_cases hf : f e.id = true
    · simp [hL, hf]
    · simp only [hL, hf, Bool.false_eq_true, if_false, if_neg]
      rw [lookupRemote_setRemote_self remote e.id (applyUpdates full u) full hL]
      simp only [hf, Bool.false_eq_true, if_false]
      rw [applyUpdates_applyUpdates]
      rw [setRemote_lookup_self _ _ _
        (lookupRemote_setRemote_self remote e.id (applyUpdates full u) full hL)]

/-- What a live single-event run leaves on the remote service. -/
theorem bulk_update_single_remote (s : UpdateSpec) (f : String → Bool) (e : Event)
    (remote : Remote) (hE : (computeUpdates s e).isEmpty = false) :
    (bulk_update s f false [e] remote).remote
      = (liveStep remote f e (computeUpdates s e)).2 := by
  simp [bulk_update, hE]

theorem normStr_truthy (o : Option String) : pyTruthy (normStr o) = pyTruthy o := by
  rcases o with _ | v
  · rfl
  · by_cases h : v = "" <;> simp [normStr, pyTruthy, h]

theorem normStr_of_truthy (o : Option String) (h : pyTruthy o = true) :
    normStr o = o := by
  rcases o with _ | v
  · simp [pyTruthy] at h
  · simp only [pyTruthy] at h
    by_cases hv : v = ""
    · simp [hv] at h
    · simp [normStr, hv]

theorem ifNorm (o : Option String) :
    (if pyTruthy (normStr o) then normStr o else none)
      = (if pyTruthy o then o else none) := by
  rcases o with _ | v
  · rfl
  · by_cases h : v = "" <;> simp [normStr, pyTruthy, h]

/-- The changed-field mapping cannot tell an empty-string parameter from an
omitted one. -/
theorem computeUpdates_normalize (s : UpdateSpec) (e : Event) :
    computeUpdates (normalizeSpec s) e = computeUpdates s e := by
  simp only [computeUpdates, normalizeSpec, Updates.mk.injEq]
  refine ⟨ifNorm _, ?_, ifNorm _, ifNorm _⟩
  rw [normStr_truthy s.new_description, normStr_truthy s.append_to_description]
  by_cases h1 : pyTruthy s.new_description = true
  · simp [h1, normStr_of_truthy _ h1]
  · by_cases h2 : pyTruthy s.append_to_description = true
    · simp [h1, h2, normStr_of_truthy _ h2]
    · simp [h1, h2]

/-- `bulk_update` cannot tell an empty-string parameter from an omitted one. -/
theorem bulk_update_normalize (s : UpdateSpec) (f : String → Bool) (dry_run : Bool) :
    ∀ (events : List Event) (remote : Remote),
      bulk_update (normalizeSpec s) f dry_run events remote
        = bulk_update s f dry_run events remote := by
  intro events
  induction events with
  | nil => intro remote; rfl
  | cons e rest ih => intro remote; simp [bulk_update, computeUpdates_normalize, ih]

/- ------------------------------------------------------------------ -/
/- Claims                                                              -/
/- ------------------------------------------------------------------ -/

/-- C1: for every title filter string, `find_events` keeps exactly the events
whose title (case-insensitively, a missing title read as the empty string)
contains the filter substring, in listing order; and on the concrete calendar
["Team Meeting", "Lunch", "meeting recap"] the filter "Meeting" returns
exactly the first and third events in order. -/
theorem C1_find_events_title_filter :
    (∀ (t : String) (listed : List Event),
      find_events (some t) listed = listed.filter (matchesTitle t))
    ∧ find_events (some "Meeting")
        [{ id := "1", summary := some "Team Meeting" },
         { id := "2", summary := some "Lunch" },
         { id := "3", summary := some "meeting recap" }]
      = [{ id := "1", summary := some "Team Meeting" },
         { id := "3", summary := some "meeting recap" }] := by
  constructor
  · intro t listed
    by_cases h : t = ""
    · subst h
      simp [find_events, List.filter_eq_self.mpr, matchesTitle_empty]
    · simp [find_events, h]
  · rfl

/-- C2: when both a full description and an append text are supplied (in the
Python sense: non-empty), the full description is what lands in the
changed-field mapping, for every event. -/
theorem C2_full_description_wins (s : UpdateSpec) (e : Event)
    (hd : pyTruthy s.new_description = true)
    (ha : pyTruthy s.append_to_description = true) :
    (computeUpdates s e).description = s.new_description := by
  simp [computeUpdates, hd]

theorem C2_full_description_wins_witness :
    (computeUpdates { new_description := some "full", append_to_description := some "app" }
      { id := "1" }).description = some "full" :=
  C2_full_description_wins
    { new_description := some "full", append_to_description := some "app" }
    { id := "1" } (by decide) (by decide)

/-- C3: with no full description supplied, appending `a` to an event whose
existing description reads as `d` (the empty string when absent) puts
`strip (d ++ "\n" ++ a)` in the changed-field mapping. -/
theorem C3_append_description (s : UpdateSpec) (e : Event) (d a : String)
    (hd : e.description.getD "" = d)
    (hnd : pyTruthy s.new_description = false)
    (ha : s.append_to_description = some a)
    (hane : a ≠ "") :
    (computeUpdates s e).description = some (pyStrip (d ++ "\n" ++ a)) := by
  have h : pyTruthy (some a) = true := by simp [pyTruthy, hane]
  simp [computeUpdates, hnd, ha, h, hd]

theorem C3_append_description_witness :
    (computeUpdates { append_to_description := some "Updated" }
      { id := "1", description := some "Agenda: X" }).description
      = some "Agenda: X\nUpdated" :=
  (C3_append_description { append_to_description := some "Updated" }
    { id := "1", description := some "Agenda: X" } "Agenda: X" "Updated"
    rfl rfl rfl (by decide)).trans (by decide)

/-- C4: with no update fields supplied every event is skipped: count 0, no
report, no live remote call, remote state untouched, whatever the dry-run
flag and the event list. -/
theorem C4_empty_spec_skips_all (f : String → Bool) (dry_run : Bool)
    (events : List Event) (remote : Remote) :
    bulk_update {} f dry_run events remote = ⟨0, remote, [], 0⟩ := by
  induction events with
  | nil => rfl
  | cons e rest ih => simp [bulk_update, computeUpdates_empty_spec, ih]

/-- C5: a dry run issues no live get or update call and leaves the remote
state exactly as it was, so running it any number of times is
indistinguishable from never having run it. -/
theorem C5_dry_run_no_mutation (s : UpdateSpec) (f : String → Bool)
    (events : List Event) (remote : Remote) :
    (bulk_update s f true events remote).remote = remote ∧
    (bulk_update s f true events remote).liveCalls = 0 ∧
    ∀ n : Nat,
      Nat.iterate (fun r => (bulk_update s f true events r).remote) n remote = remote := by
  refine ⟨(bulk_update_dry s f events remote).2.1,
    (bulk_update_dry s f events remote).2.2, ?_⟩
  intro n
  induction n with
  | zero => rfl
  | succ k ihk =>
    rw [Function.iterate_succ_apply', ihk]
    exact (bulk_update_dry s f events remote).2.1

/-- C6: in live mode an exception on one event's get or update call is
caught and reported as that event's failure line, the event does not count,
the remote state is untouched by it, and the rest of the batch proceeds
exactly as it would have; on the concrete three-event batch whose second
remote call raises, the returned count is 2 and all three events are
reported in order (success, failure, success). -/
theorem C6_per_event_failure_isolated :
    (∀ (s : UpdateSpec) (f : String → Bool) (e : Event) (rest : List Event)
       (remote : Remote),
      (computeUpdates s e).isEmpty = false → f e.id = true →
      bulk_update s f false (e :: rest) remote =
        ⟨(bulk_update s f false rest remote).count,
         (bulk_update s f false rest remote).remote,
         Report.failure (e.summary.getD "Untitled")
           :: (bulk_update s f false rest remote).reports,
         (bulk_update s f false rest remote).liveCalls + 1⟩)
    ∧ bulk_update specLoc failsSecond false [ev1, ev2, ev3] remote3
        = ⟨2,
           [("1", { id := "1", summary := some "One", location := some "Room 4" }),
            ("2", ev2),
            ("3", { id := "3", summary := some "Three", location := some "Room 4" })],
           [Report.success "One", Report.failure "Two", Report.success "Three"],
           3⟩ := by
  constructor
  · intro s f e rest remote hne hf
    simp [bulk_update, hne, liveStep_fails remote f e (computeUpdates s e) hf]
  · decide

theorem C6_per_event_failure_isolated_witness :
    bulk_update specLoc failsSecond false (ev2 :: [ev3]) remote3 =
      ⟨(bulk_update specLoc failsSecond false [ev3] remote3).count,
       (bulk_update specLoc failsSecond false [ev3] remote3).remote,
       Report.failure (ev2.summary.getD "Untitled")
         :: (bulk_update specLoc failsSecond false [ev3] remote3).reports,
       (bulk_update specLoc failsSecond false [ev3] remote3).liveCalls + 1⟩ :=
  C6_per_event_failure_isolated.1 specLoc failsSecond ev2 [ev3] remote3
    (by decide) (by decide)

/-- C7: for a spec without description-append, running the live update of an
event twice leaves the remote state — in particular every field of the
event — exactly where one run left it (the read-merge-write update is
idempotent for direct field replacements). -/
theorem C7_live_update_idempotent (s : UpdateSpec) (f : String → Bool)
    (e : Event) (remote : Remote)
    (hna : pyTruthy s.append_to_description = false) :
    (bulk_update s f false [e]
        (bulk_update s f false [e] remote).remote).remote
      = (bulk_update s f false [e] remote).remote := by
  by_cases hE : (computeUpdates s e).isEmpty = true
  · simp [bulk_update, hE]
  · have hE' : (computeUpdates s e).isEmpty = false := by
      cases h : (computeUpdates s e).isEmpty
      · rfl
      · exact absurd h hE
    rw [bulk_update_single_remote s f e remote hE',
      bulk_update_single_remote s f e _ hE']
    exact liveStep_idem remote f e (computeUpdates s e)

theorem C7_live_update_idempotent_witness :
    (bulk_update specLoc failsNone false [ev1]
        (bulk_update specLoc failsNone false [ev1] remote3).remote).remote
      = (bulk_update specLoc failsNone false [ev1] remote3).remote :=
  C7_live_update_idempotent specLoc failsNone ev1 remote3 rfl

/-- C8: authentication ends in the missing-client-secret error exactly when
no usable cached credential exists (none that is valid, none that is expired
with a refresh token) and the client-secret file is absent. -/
theorem C8_missing_client_secret (cached : Option CachedCreds) (fe : Bool) :
    _authenticate cached fe = AuthOutcome.missingClientSecret ↔
      (usableCached cached = false ∧ fe = false) := by
  rcases cached with _ | ⟨v, ex, rt⟩
  · cases fe <;> simp [_authenticate, usableCached]
  · cases v <;> cases ex <;> cases rt <;> cases fe <;>
      simp [_authenticate, usableCached]

/-- C9: an empty-string field parameter behaves exactly like an omitted one,
both in the changed-field mapping and through an entire `bulk_update` run —
so no field can be set to the empty string through this interface — and an
empty-string `new_description` together with an append text applies the
append rather than the replacement. -/
theorem C9_empty_string_params :
    (∀ (s : UpdateSpec) (e : Event),
      computeUpdates s e = computeUpdates (normalizeSpec s) e)
    ∧ (∀ (s : UpdateSpec) (f : String → Bool) (dry_run : Bool)
         (events : List Event) (remote : Remote),
        bulk_update s f dry_run events remote
          = bulk_update (normalizeSpec s) f dry_run events remote)
    ∧ (∀ (e : Event) (a : String), a ≠ "" →
        (computeUpdates
          { new_description := some "", append_to_description := some a } e).description
          = some (pyStrip ((e.description.getD "") ++ "\n" ++ a))) := by
  refine ⟨fun s e => (computeUpdates_normalize s e).symm,
    fun s f dry_run events remote => (bulk_update_normalize s f dry_run events remote).symm,
    fun e a ha => ?_⟩
  have h : pyTruthy (some a) = true := by simp [pyTruthy, ha]
  simp [computeUpdates, pyTruthy, h, ha]

theorem C9_empty_string_params_witness :
    (computeUpdates { new_description := some "", append_to_description := some "plus" }
      { id := "1", description := some "base" }).description = some "base\nplus" :=
  (C9_empty_string_params.2.2 { id := "1", description := some "base" } "plus"
    (by decide)).trans (by decide)

/-- C10: the count `bulk_update` returns never exceeds the number of events
passed in, and a dry run always returns count 0. -/
theorem C10_count_invariant (s : UpdateSpec) (f : String → Bool) (dry_run : Bool)
    (events : List Event) (remote : Remote) :
    (bulk_update s f dry_run events remote).count ≤ events.length ∧
    (bulk_update s f true events remote).count = 0 :=
  ⟨bulk_update_count_le s f dry_run events remote,
   (bulk_update_dry s f events remote).1⟩

end CalendarUpdater
